import Mathlib

/-!
Verification of the multipath path prober (`src/probe.c`).

The prober is a single `main` function: validate the argument count, open
the named device node read-only, print `probing`, then loop on
`ioctl(fd, DM_MPATH_PROBE_PATHS)` while it returns a negative value,
retrying on `EINTR`/`EAGAIN`, exiting with `no usable paths` on
`ENOTCONN`, exiting with a `perror` diagnostic on any other errno, and
finally closing the descriptor and returning 0 on success.

The embedding makes the OS responses explicit: an `OS` oracle supplies the
result of `open`, the successive results of `ioctl` (a finite list — the
live loop may consult arbitrarily many), and the result of `close`.  The
program becomes the pure function `run` from the invocation and the
oracle to the observable behaviour (exit code, stdout and stderr lines,
whether `open` was attempted, how many `ioctl` calls were issued, and
whether `close` was called).  `run` returns `none` when the loop is still
retrying after the oracle's last response, i.e. the process has not
terminated.
-/

namespace Probe

/-- Linux errno value `ENOTCONN` (transport endpoint is not connected),
the status `probe.c` line 30 tests for. -/
def ENOTCONN : Nat := 107

/-- Linux errno value `EINTR` (interrupted system call), first retry
condition of `probe.c` line 33. -/
def EINTR : Nat := 4

/-- Linux errno value `EAGAIN` (resource temporarily unavailable), second
retry condition of `probe.c` line 33. -/
def EAGAIN : Nat := 11

/-- Result of one `ioctl` call: the return value `ret`, and the `errno`
value `err` in effect after the call.  The C program consults `errno`
only when `ret < 0`. -/
structure IoctlRes where
  ret : Int
  err : Nat
deriving DecidableEq

/-- A command-line invocation: the program name (`argv[0]`) and the list
of positional arguments (`argv[1]`, ...).  `argc` of the C program is
`1 + args.length`, so the `argc != 2` test of line 19 is
`args.length ≠ 1`. -/
structure Invocation where
  prog : String
  args : List String
deriving DecidableEq

/-- Oracle for the OS calls the program makes: the return value and errno
of `open`, the successive `ioctl` results, and the return value of
`close` (which `probe.c` line 38 discards). -/
structure OS where
  openRet : Int
  openErrno : Nat
  ioctl : List IoctlRes
  closeRet : Int
deriving DecidableEq

/-- Observable behaviour of a terminated run: the exit status, the lines
written to stdout and stderr, whether the `open` syscall was attempted,
the number of `ioctl` calls issued, and whether `close` was called. -/
structure RunResult where
  exitCode : Nat
  stdout : List String
  stderr : List String
  openAttempted : Bool
  ioctlCalls : Nat
  closed : Bool
deriving DecidableEq

/-- Abstract model of the libc error text for an errno value (what
`%m` and `perror` append): an injective rendering of the code.  The
claims only ever ask that a diagnostic contain this text. -/
def strerror (e : Nat) : String := "oserr-" ++ toString e

/-- The usage diagnostic of `probe.c` line 20:
`Usage: %s <dm-path>\n` with `argv[0]`. -/
def usageMsg (prog : String) : String := "Usage: " ++ prog ++ " <dm-path>"

/-- The open-failure diagnostic of `probe.c` line 25:
`open of %s failed: %m\n`. -/
def openFailMsg (path : String) (e : Nat) : String :=
  "open of " ++ path ++ " failed: " ++ strerror e

/-- The diagnostic of `perror("ioctl failed")` at `probe.c` line 34. -/
def ioctlFailMsg (e : Nat) : String := "ioctl failed: " ++ strerror e

/-- Outcome of the `while (ioctl(fd, DM_MPATH_PROBE_PATHS) < 0)` loop of
`probe.c` lines 29-37, together with the number of `ioctl` calls made:
`success` when a call returned a non-negative value, `notConn` when a
call failed with `ENOTCONN`, `otherErr e` when a call failed with an
errno `e` that is none of `ENOTCONN`, `EINTR`, `EAGAIN`, and `exhausted`
when the oracle ran out of responses while the loop was still
retrying. -/
inductive LoopOut where
  | success (n : Nat)
  | notConn (n : Nat)
  | otherErr (e : Nat) (n : Nat)
  | exhausted (n : Nat)
deriving DecidableEq

/-- Charge one more `ioctl` call to a loop outcome. -/
def LoopOut.bump : LoopOut → LoopOut
  | .success n => .success (n + 1)
  | .notConn n => .notConn (n + 1)
  | .otherErr e n => .otherErr e (n + 1)
  | .exhausted n => .exhausted (n + 1)

/-- Charge `k` more `ioctl` calls to a loop outcome. -/
def LoopOut.addCount : Nat → LoopOut → LoopOut
  | 0, o => o
  | k + 1, o => (LoopOut.addCount k o).bump

/-- Number of `ioctl` calls recorded in a loop outcome. -/
def LoopOut.calls : LoopOut → Nat
  | .success n => n
  | .notConn n => n
  | .otherErr _ n => n
  | .exhausted n => n

/-- The probe loop of `probe.c` lines 29-37, consuming the oracle's
successive `ioctl` results.  Mirrors the C tests in order: the loop
continues while `ret < 0`; inside, `errno == ENOTCONN` ends with the
no-usable-path outcome, otherwise `errno != EINTR && errno != EAGAIN`
ends with the operational-error outcome, and otherwise (EINTR or EAGAIN)
the request is reissued. -/
def probeLoop : List IoctlRes → LoopOut
  | [] => .exhausted 0
  | r :: rest =>
    if r.ret < 0 then
      if r.err = ENOTCONN then .notConn 1
      else if r.err ≠ EINTR ∧ r.err ≠ EAGAIN then .otherErr r.err 1
      else (probeLoop rest).bump
    else .success 1

/-- A transient `ioctl` result: the call failed and errno is one of the
two retry conditions of `probe.c` line 33. -/
def transient (r : IoctlRes) : Prop :=
  r.ret < 0 ∧ (r.err = EINTR ∨ r.err = EAGAIN)

instance (r : IoctlRes) : Decidable (transient r) := by
  unfold transient; infer_instance

/-- The whole of `main` (`probe.c` lines 15-40) as a function from the
invocation and the OS oracle to the observable run.  Field order of the
results: exit code, stdout lines, stderr lines, open attempted, ioctl
calls, close called.  `none` means the loop outran the oracle, i.e. the
process is still retrying and has not terminated.  Note that `close`'s
return value (`os.closeRet`) is never consulted, exactly as line 38
discards it. -/
def run (inv : Invocation) (os : OS) : Option RunResult :=
  match inv.args with
  | [path] =>
    if os.openRet < 0 then
      some ⟨1, [], [openFailMsg path os.openErrno], true, 0, false⟩
    else
      match probeLoop os.ioctl with
      | .success n => some ⟨0, ["probing"], [], true, n, true⟩
      | .notConn n => some ⟨1, ["probing", "no usable paths"], [], true, n, false⟩
      | .otherErr e n => some ⟨1, ["probing"], [ioctlFailMsg e], true, n, false⟩
      | .exhausted _ => none
  | _ => some ⟨1, [], [usageMsg inv.prog], false, 0, false⟩

/-- String `sub` occurs inside string `s` (stated over the underlying
character lists so that list append lemmas apply). -/
def containsStr (s sub : String) : Prop :=
  ∃ a b : List Char, s.data = a ++ sub.data ++ b

/-! ### Helper lemmas about the probe loop -/

theorem LoopOut.bump_calls (o : LoopOut) : o.bump.calls = o.calls + 1 := by
  cases o <;> rfl

theorem LoopOut.addCount_success (k m : Nat) :
    (LoopOut.success m).addCount k = .success (m + k) := by
  induction k with
  | zero => rfl
  | succ k ih => simp [LoopOut.addCount, ih, LoopOut.bump, Nat.add_assoc]

theorem LoopOut.addCount_notConn (k m : Nat) :
    (LoopOut.notConn m).addCount k = .notConn (m + k) := by
  induction k with
  | zero => rfl
  | succ k ih => simp [LoopOut.addCount, ih, LoopOut.bump, Nat.add_assoc]

theorem LoopOut.addCount_otherErr (k : Nat) (e m : Nat) :
    (LoopOut.otherErr e m).addCount k = .otherErr e (m + k) := by
  induction k with
  | zero => rfl
  | succ k ih => simp [LoopOut.addCount, ih, LoopOut.bump, Nat.add_assoc]

theorem LoopOut.addCount_exhausted (k m : Nat) :
    (LoopOut.exhausted m).addCount k = .exhausted (m + k) := by
  induction k with
  | zero => rfl
  | succ k ih => simp [LoopOut.addCount, ih, LoopOut.bump, Nat.add_assoc]

/-- A transient result makes the loop consult the remaining responses,
charging one extra call. -/
theorem probeLoop_transient_cons (r : IoctlRes) (rest : List IoctlRes)
    (h : transient r) : probeLoop (r :: rest) = (probeLoop rest).bump := by
  obtain ⟨hret, herr⟩ := h
  have hen : r.err ≠ ENOTCONN := by
    rcases herr with h | h <;> simp [h, EINTR, EAGAIN, ENOTCONN]
  have hcond : ¬(r.err ≠ EINTR ∧ r.err ≠ EAGAIN) := by
    rcases herr with h | h <;> simp [h]
  simp [probeLoop, hret, hen, hcond]

/-- A prefix of transient results only delays the loop, charging one call
per element. -/
theorem probeLoop_append_transient (ts l : List IoctlRes)
    (h : ∀ r ∈ ts, transient r) :
    probeLoop (ts ++ l) = (probeLoop l).addCount ts.length := by
  induction ts with
  | nil => rfl
  | cons t ts ih =>
    have ht : transient t := h t (List.mem_cons_self t ts)
    have hts : ∀ r ∈ ts, transient r := fun r hr => h r (List.mem_cons_of_mem t hr)
    calc probeLoop (t :: ts ++ l) = (probeLoop (ts ++ l)).bump :=
          probeLoop_transient_cons t (ts ++ l) ht
      _ = ((probeLoop l).addCount ts.length).bump := by rw [ih hts]
      _ = (probeLoop l).addCount (ts.length + 1) := rfl
      _ = (probeLoop l).addCount (t :: ts).length := by simp

/-- A non-negative return value ends the loop at once with the success
outcome, after exactly one call. -/
theorem probeLoop_success_cons (r : IoctlRes) (rest : List IoctlRes)
    (h : 0 ≤ r.ret) : probeLoop (r :: rest) = .success 1 := by
  simp [probeLoop, Int.not_lt.mpr h]

/-- A failure with `ENOTCONN` ends the loop at once with the
no-usable-path outcome. -/
theorem probeLoop_notConn_cons (r : IoctlRes) (rest : List IoctlRes)
    (hret : r.ret < 0) (herr : r.err = ENOTCONN) :
    probeLoop (r :: rest) = .notConn 1 := by
  simp [probeLoop, hret, herr]

/-- A failure with an errno other than `ENOTCONN`, `EINTR`, `EAGAIN` ends
the loop at once with the operational-error outcome. -/
theorem probeLoop_otherErr_cons (r : IoctlRes) (rest : List IoctlRes)
    (hret : r.ret < 0) (h1 : r.err ≠ ENOTCONN) (h2 : r.err ≠ EINTR)
    (h3 : r.err ≠ EAGAIN) : probeLoop (r :: rest) = .otherErr r.err 1 := by
  simp [probeLoop, hret, h1, h2, h3]

/-- Once the loop issues at least one call, it has issued at least one
call: the recorded count of a nonempty run is positive. -/
theorem probeLoop_cons_calls_pos (r : IoctlRes) (rest : List IoctlRes) :
    1 ≤ (probeLoop (r :: rest)).calls := by
  by_cases hret : r.ret < 0
  · by_cases hen : r.err = ENOTCONN
    · simp [probeLoop, hret, hen, LoopOut.calls]
    · by_cases hother : r.err ≠ EINTR ∧ r.err ≠ EAGAIN
      · simp [probeLoop, hret, hen, hother, LoopOut.calls]
      · have : probeLoop (r :: rest) = (probeLoop rest).bump := by
          simp [probeLoop, hret, hen, hother]
        rw [this, LoopOut.bump_calls]
        omega
  · simp [probeLoop, hret, LoopOut.calls]

/-- A bumped loop outcome is never a one-call terminal outcome: the bump
charges the call the head result consumed, so a one-call terminal can
only arise from the head itself. -/
theorem bump_ne_one_call_terminal (rest : List IoctlRes) (o : LoopOut)
    (hc : o.calls = 1) (hex : ∀ m, o ≠ LoopOut.exhausted m) :
    (probeLoop rest).bump ≠ o := by
  intro h
  cases rest with
  | nil => exact hex 1 h.symm
  | cons r t =>
    have hcall := congrArg LoopOut.calls h
    rw [LoopOut.bump_calls, hc] at hcall
    have hp := probeLoop_cons_calls_pos r t
    omega

/-- Behaviour of `run` once `main` is past the argument check and the
open succeeded: it is determined by the probe-loop outcome. -/
theorem run_args_eq (inv : Invocation) (path : String) (os : OS)
    (harg : inv.args = [path]) : run inv os = run ⟨inv.prog, [path]⟩ os := by
  obtain ⟨prog, args⟩ := inv
  have h2 : args = [path] := harg
  subst h2
  rfl

theorem run_opened_success (prog path : String) (os : OS) (n : Nat)
    (hopen : 0 ≤ os.openRet) (h : probeLoop os.ioctl = .success n) :
    run ⟨prog, [path]⟩ os = some ⟨0, ["probing"], [], true, n, true⟩ := by
  simp [run, Int.not_lt.mpr hopen, h]

theorem run_opened_notConn (prog path : String) (os : OS) (n : Nat)
    (hopen : 0 ≤ os.openRet) (h : probeLoop os.ioctl = .notConn n) :
    run ⟨prog, [path]⟩ os =
      some ⟨1, ["probing", "no usable paths"], [], true, n, false⟩ := by
  simp [run, Int.not_lt.mpr hopen, h]

theorem run_opened_otherErr (prog path : String) (os : OS) (e n : Nat)
    (hopen : 0 ≤ os.openRet) (h : probeLoop os.ioctl = .otherErr e n) :
    run ⟨prog, [path]⟩ os =
      some ⟨1, ["probing"], [ioctlFailMsg e], true, n, false⟩ := by
  simp [run, Int.not_lt.mpr hopen, h]

/-! ### Claims -/

/-- Claim C1 counterexample: with one argument, a successful open, and a
first ioctl result failing with `ENOTCONN`, the run reaches the
no-usable-path outcome (stdout `probing` then `no usable paths`, exit
status 1) yet `close` is NOT called (`closed = false`), refuting the
claim that the handle is released on this outcome just as on success:
`probe.c` line 32 calls `exit(1)` before the `close(fd)` of line 38. -/
theorem c1_counterexample :
    run ⟨"prober", ["/dev/dm-3"]⟩ ⟨3, 0, [⟨-1, ENOTCONN⟩], 0⟩ =
      some ⟨1, ["probing", "no usable paths"], [], true, 1, false⟩ ∧
    ¬ (run ⟨"prober", ["/dev/dm-3"]⟩ ⟨3, 0, [⟨-1, ENOTCONN⟩], 0⟩).map
        RunResult.closed = some true := by
  constructor
  · rfl
  · decide

/-- Claim C1 (amended): the device handle is released only on the
success outcome; when the probe request returns the not-connected
status the program prints `probing` then `no usable paths` and
terminates with exit status 1 WITHOUT calling close. -/
theorem c1_close_only_on_success (inv : Invocation) (path : String)
    (os : OS) (n : Nat) (harg : inv.args = [path])
    (hopen : 0 ≤ os.openRet) :
    (probeLoop os.ioctl = .notConn n →
      run inv os = some ⟨1, ["probing", "no usable paths"], [], true, n, false⟩) ∧
    (probeLoop os.ioctl = .success n →
      run inv os = some ⟨0, ["probing"], [], true, n, true⟩) := by
  constructor
  · intro h
    rw [run_args_eq inv path os harg]
    exact run_opened_notConn inv.prog path os n hopen h
  · intro h
    rw [run_args_eq inv path os harg]
    exact run_opened_success inv.prog path os n hopen h

/-- Witness for C1 (amended) at a concrete not-connected run. -/
theorem c1_witness :
    run ⟨"prober", ["/dev/dm-1"]⟩ ⟨0, 0, [⟨-1, 107⟩], 5⟩ =
      some ⟨1, ["probing", "no usable paths"], [], true, 1, false⟩ :=
  (c1_close_only_on_success ⟨"prober", ["/dev/dm-1"]⟩ "/dev/dm-1"
    ⟨0, 0, [⟨-1, 107⟩], 5⟩ 1 rfl (by decide)).1 (by decide)

/-- Claim C2: the probe loop retries (consults the remaining responses,
charging one extra call) exactly when the head request fails with
`EINTR` or `EAGAIN`; and when every response is transient, the loop
terminates in no outcome at all (it outruns any finite response list),
so the process never terminates from within a transient state. -/
theorem c2_retry_exactly_on_transient (r : IoctlRes) (rest : List IoctlRes) :
    (probeLoop (r :: rest) = (probeLoop rest).bump ↔
      r.ret < 0 ∧ (r.err = EINTR ∨ r.err = EAGAIN)) ∧
    ((∀ x ∈ r :: rest, transient x) →
      probeLoop (r :: rest) = .exhausted (rest.length + 1)) := by
  constructor
  · constructor
    · intro h
      by_contra hc
      by_cases hret : r.ret < 0
      · by_cases hen : r.err = ENOTCONN
        · have hL := probeLoop_notConn_cons r rest hret hen
          exact bump_ne_one_call_terminal rest (.notConn 1) rfl
            (fun m hm => LoopOut.noConfusion hm) (h.symm.trans hL)
        · have herr : r.err ≠ EINTR ∧ r.err ≠ EAGAIN :=
            ⟨fun he => hc ⟨hret, Or.inl he⟩, fun he => hc ⟨hret, Or.inr he⟩⟩
          have hL := probeLoop_otherErr_cons r rest hret hen herr.1 herr.2
          exact bump_ne_one_call_terminal rest (.otherErr r.err 1) rfl
            (fun m hm => LoopOut.noConfusion hm) (h.symm.trans hL)
      · have hL := probeLoop_success_cons r rest (Int.not_lt.mp hret)
        exact bump_ne_one_call_terminal rest (.success 1) rfl
          (fun m hm => LoopOut.noConfusion hm) (h.symm.trans hL)
    · intro hcond
      exact probeLoop_transient_cons r rest hcond
  · intro h
    have hall := probeLoop_append_transient (r :: rest) [] h
    rw [List.append_nil] at hall
    rw [hall]
    show (LoopOut.exhausted 0).addCount (r :: rest).length = _
    rw [LoopOut.addCount_exhausted]
    simp [Nat.add_comm]

/-- Witness for C2: a transient head is retried; an all-transient
response list leaves the loop unterminated. -/
theorem c2_witness :
    probeLoop [⟨-1, 4⟩, ⟨0, 0⟩] = (probeLoop [⟨0, 0⟩]).bump ∧
    probeLoop [⟨-1, 4⟩, ⟨-1, 11⟩] = .exhausted 2 :=
  ⟨(c2_retry_exactly_on_transient ⟨-1, 4⟩ [⟨0, 0⟩]).1.mpr (by decide),
   (c2_retry_exactly_on_transient ⟨-1, 4⟩ [⟨-1, 11⟩]).2 (by decide)⟩

/-- Claim C3: if the probe request fails with the interrupted or
try-again status N times and then succeeds, the program issues exactly
N + 1 probe requests, exits with status 0, prints `probing` exactly once
and never prints `no usable paths`. -/
theorem c3_n_transients_then_success (N : Nat) (inv : Invocation)
    (path : String) (os : OS) (ts : List IoctlRes) (s : IoctlRes)
    (harg : inv.args = [path]) (hopen : 0 ≤ os.openRet)
    (hio : os.ioctl = ts ++ [s]) (hN : ts.length = N)
    (hts : ∀ r ∈ ts, transient r) (hs : 0 ≤ s.ret) :
    run inv os = some ⟨0, ["probing"], [], true, N + 1, true⟩ := by
  have hloop : probeLoop os.ioctl = .success (N + 1) := by
    rw [hio, probeLoop_append_transient ts [s] hts,
      probeLoop_success_cons s [] hs, LoopOut.addCount_success, hN,
      Nat.add_comm 1 N]
  rw [run_args_eq inv path os harg]
  exact run_opened_success inv.prog path os (N + 1) hopen hloop

/-- Witness for C3 with N = 2: an `EINTR` failure, an `EAGAIN` failure,
then success. -/
theorem c3_witness :
    run ⟨"prober", ["/dev/dm-0"]⟩ ⟨0, 0, [⟨-1, 4⟩, ⟨-1, 11⟩, ⟨0, 0⟩], 0⟩ =
      some ⟨0, ["probing"], [], true, 3, true⟩ :=
  c3_n_transients_then_success 2 ⟨"prober", ["/dev/dm-0"]⟩ "/dev/dm-0"
    ⟨0, 0, [⟨-1, 4⟩, ⟨-1, 11⟩, ⟨0, 0⟩], 0⟩ [⟨-1, 4⟩, ⟨-1, 11⟩] ⟨0, 0⟩
    rfl (by decide) rfl rfl (by decide) (by decide)

/-- Claim C4: when the first non-transient probe result is a failure
with `ENOTCONN`, the run prints `probing` then `no usable paths` on
stdout and exits with status 1; when the first non-transient result is a
success, stdout is exactly `probing` and nothing else. -/
theorem c4_notConn_and_success_output (inv : Invocation) (path : String)
    (os : OS) (harg : inv.args = [path]) (hopen : 0 ≤ os.openRet) :
    (∀ ts r rest, os.ioctl = ts ++ r :: rest → (∀ x ∈ ts, transient x) →
      r.ret < 0 → r.err = ENOTCONN →
      run inv os =
        some ⟨1, ["probing", "no usable paths"], [], true, ts.length + 1, false⟩) ∧
    (∀ ts r rest, os.ioctl = ts ++ r :: rest → (∀ x ∈ ts, transient x) →
      0 ≤ r.ret →
      run inv os = some ⟨0, ["probing"], [], true, ts.length + 1, true⟩) := by
  constructor
  · intro ts r rest hio hts hret herr
    have hloop : probeLoop os.ioctl = .notConn (ts.length + 1) := by
      rw [hio, probeLoop_append_transient ts (r :: rest) hts,
        probeLoop_notConn_cons r rest hret herr, LoopOut.addCount_notConn,
        Nat.add_comm 1 ts.length]
    rw [run_args_eq inv path os harg]
    exact run_opened_notConn inv.prog path os (ts.length + 1) hopen hloop
  · intro ts r rest hio hts hret
    have hloop : probeLoop os.ioctl = .success (ts.length + 1) := by
      rw [hio, probeLoop_append_transient ts (r :: rest) hts,
        probeLoop_success_cons r rest hret, LoopOut.addCount_success,
        Nat.add_comm 1 ts.length]
    rw [run_args_eq inv path os harg]
    exact run_opened_success inv.prog path os (ts.length + 1) hopen hloop

/-- Witness for C4: an immediate `ENOTCONN` failure after one `EINTR`
retry yields `probing`, `no usable paths` and exit status 1. -/
theorem c4_witness :
    run ⟨"prober", ["/dev/dm-2"]⟩ ⟨2, 0, [⟨-1, 4⟩, ⟨-1, 107⟩], 0⟩ =
      some ⟨1, ["probing", "no usable paths"], [], true, 2, false⟩ :=
  (c4_notConn_and_success_output ⟨"prober", ["/dev/dm-2"]⟩ "/dev/dm-2"
    ⟨2, 0, [⟨-1, 4⟩, ⟨-1, 107⟩], 0⟩ rfl (by decide)).1
    [⟨-1, 4⟩] ⟨-1, 107⟩ [] rfl (by decide) (by decide) rfl

/-- Claim C5: a probe failure with any errno other than `ENOTCONN`,
`EINTR`, `EAGAIN` exits with status 1, writes a diagnostic containing
the OS error text to stderr, never prints `no usable paths` (stdout is
exactly `probing`), and does not call close. -/
theorem c5_operational_error (inv : Invocation) (path : String) (os : OS)
    (ts : List IoctlRes) (r : IoctlRes) (rest : List IoctlRes)
    (harg : inv.args = [path]) (hopen : 0 ≤ os.openRet)
    (hio : os.ioctl = ts ++ r :: rest) (hts : ∀ x ∈ ts, transient x)
    (hret : r.ret < 0) (h1 : r.err ≠ ENOTCONN) (h2 : r.err ≠ EINTR)
    (h3 : r.err ≠ EAGAIN) :
    run inv os =
      some ⟨1, ["probing"], [ioctlFailMsg r.err], true, ts.length + 1, false⟩ ∧
    containsStr (ioctlFailMsg r.err) (strerror r.err) := by
  constructor
  · have hloop : probeLoop os.ioctl = .otherErr r.err (ts.length + 1) := by
      rw [hio, probeLoop_append_transient ts (r :: rest) hts,
        probeLoop_otherErr_cons r rest hret h1 h2 h3,
        LoopOut.addCount_otherErr, Nat.add_comm 1 ts.length]
    rw [run_args_eq inv path os harg]
    exact run_opened_otherErr inv.prog path os r.err (ts.length + 1) hopen hloop
  · exact ⟨"ioctl failed: ".data, [],
      by simp [ioctlFailMsg, String.data_append]⟩

/-- Witness for C5: an immediate `EACCES` (13) failure. -/
theorem c5_witness :
    run ⟨"prober", ["/dev/dm-4"]⟩ ⟨4, 0, [⟨-1, 13⟩], 0⟩ =
      some ⟨1, ["probing"], [ioctlFailMsg 13], true, 1, false⟩ ∧
    containsStr (ioctlFailMsg 13) (strerror 13) :=
  c5_operational_error ⟨"prober", ["/dev/dm-4"]⟩ "/dev/dm-4"
    ⟨4, 0, [⟨-1, 13⟩], 0⟩ [] ⟨-1, 13⟩ [] rfl (by decide) rfl (by decide)
    (by decide) (by decide) (by decide) (by decide)

/-- Claim C6: any invocation whose positional argument count is not one
exits with status 1, writes the usage message (which contains the
program name) to stderr, and never attempts to open the device. -/
theorem c6_usage_error (inv : Invocation) (os : OS)
    (h : inv.args.length ≠ 1) :
    run inv os = some ⟨1, [], [usageMsg inv.prog], false, 0, false⟩ ∧
    containsStr (usageMsg inv.prog) inv.prog := by
  constructor
  · obtain ⟨prog, args⟩ := inv
    rcases args with _ | ⟨a, _ | ⟨b, t⟩⟩
    · rfl
    · exact absurd rfl h
    · rfl
  · exact ⟨"Usage: ".data, " <dm-path>".data,
      by simp [usageMsg, String.data_append]⟩

/-- Witness for C6 at an invocation with zero positional arguments. -/
theorem c6_witness :
    run ⟨"prober", []⟩ ⟨0, 0, [⟨0, 0⟩], 0⟩ =
      some ⟨1, [], [usageMsg "prober"], false, 0, false⟩ ∧
    containsStr (usageMsg "prober") "prober" :=
  c6_usage_error ⟨"prober", []⟩ ⟨0, 0, [⟨0, 0⟩], 0⟩ (by decide)

/-- Claim C7: when the open of the named path fails, the run exits with
status 1, writes an open-failure message containing both the path and
the OS error text to stderr, and issues no probe request (zero ioctl
calls). -/
theorem c7_open_failure (inv : Invocation) (path : String) (os : OS)
    (harg : inv.args = [path]) (hopen : os.openRet < 0) :
    run inv os = some ⟨1, [], [openFailMsg path os.openErrno], true, 0, false⟩ ∧
    containsStr (openFailMsg path os.openErrno) path ∧
    containsStr (openFailMsg path os.openErrno) (strerror os.openErrno) := by
  refine ⟨?_, ⟨"open of ".data, (" failed: " ++ strerror os.openErrno).data, ?_⟩,
    ⟨("open of " ++ path ++ " failed: ").data, [], ?_⟩⟩
  · rw [run_args_eq inv path os harg]
    simp [run, hopen]
  · simp [openFailMsg, String.data_append]
  · simp [openFailMsg, String.data_append]

/-- Witness for C7: open fails with `ENOENT` (2). -/
theorem c7_witness :
    run ⟨"prober", ["/dev/nope"]⟩ ⟨-1, 2, [⟨0, 0⟩], 0⟩ =
      some ⟨1, [], [openFailMsg "/dev/nope" 2], true, 0, false⟩ ∧
    containsStr (openFailMsg "/dev/nope" 2) "/dev/nope" ∧
    containsStr (openFailMsg "/dev/nope" 2) (strerror 2) :=
  c7_open_failure ⟨"prober", ["/dev/nope"]⟩ "/dev/nope"
    ⟨-1, 2, [⟨0, 0⟩], 0⟩ rfl (by decide)

/-- Claim C8: a run against a device in a usable state (every probe
response is a success) terminates with exit status 0, stdout exactly
`probing`, empty stderr, one ioctl call and the handle closed; and any
two such runs — `run` being a pure function of the invocation and OS
responses — produce identical observable results. -/
theorem c8_deterministic_success (inv : Invocation) (path : String)
    (os1 os2 : OS) (harg : inv.args = [path])
    (ho1 : 0 ≤ os1.openRet) (ho2 : 0 ≤ os2.openRet)
    (hn1 : os1.ioctl ≠ []) (hn2 : os2.ioctl ≠ [])
    (hs1 : ∀ r ∈ os1.ioctl, 0 ≤ r.ret) (hs2 : ∀ r ∈ os2.ioctl, 0 ≤ r.ret) :
    run inv os1 = some ⟨0, ["probing"], [], true, 1, true⟩ ∧
    run inv os1 = run inv os2 := by
  have key : ∀ os : OS, 0 ≤ os.openRet → os.ioctl ≠ [] →
      (∀ r ∈ os.ioctl, 0 ≤ r.ret) →
      run inv os = some ⟨0, ["probing"], [], true, 1, true⟩ := by
    intro os ho hn hs
    obtain ⟨r, rest, hr⟩ : ∃ r rest, os.ioctl = r :: rest := by
      cases hio : os.ioctl with
      | nil => exact absurd hio hn
      | cons a l => exact ⟨a, l, rfl⟩
    have hmem : r ∈ os.ioctl := by rw [hr]; exact List.mem_cons_self r rest
    have hloop : probeLoop os.ioctl = .success 1 := by
      rw [hr]; exact probeLoop_success_cons r rest (hs r hmem)
    rw [run_args_eq inv path os harg]
    exact run_opened_success inv.prog path os 1 ho hloop
  have k1 := key os1 ho1 hn1 hs1
  have k2 := key os2 ho2 hn2 hs2
  exact ⟨k1, k1.trans k2.symm⟩

/-- Witness for C8: two always-successful runs with different open
descriptors and ioctl return values give identical results. -/
theorem c8_witness :
    run ⟨"prober", ["/dev/dm-5"]⟩ ⟨3, 0, [⟨0, 0⟩], 0⟩ =
      some ⟨0, ["probing"], [], true, 1, true⟩ ∧
    run ⟨"prober", ["/dev/dm-5"]⟩ ⟨3, 0, [⟨0, 0⟩], 0⟩ =
      run ⟨"prober", ["/dev/dm-5"]⟩ ⟨7, 0, [⟨2, 0⟩, ⟨0, 0⟩], 1⟩ :=
  c8_deterministic_success ⟨"prober", ["/dev/dm-5"]⟩ "/dev/dm-5"
    ⟨3, 0, [⟨0, 0⟩], 0⟩ ⟨7, 0, [⟨2, 0⟩, ⟨0, 0⟩], 1⟩ rfl (by decide)
    (by decide) (by decide) (by decide) (by decide) (by decide)

/-- Claim C9: any non-negative ioctl return value — not only zero — ends
the loop with the success outcome after that one call, and the run
closes the handle and exits with status 0. -/
theorem c9_nonneg_return_is_success (inv : Invocation) (path : String)
    (os : OS) (r : IoctlRes) (rest : List IoctlRes)
    (harg : inv.args = [path]) (hopen : 0 ≤ os.openRet)
    (hio : os.ioctl = r :: rest) (hr : 0 ≤ r.ret) :
    probeLoop os.ioctl = .success 1 ∧
    run inv os = some ⟨0, ["probing"], [], true, 1, true⟩ := by
  have hloop : probeLoop os.ioctl = .success 1 := by
    rw [hio]; exact probeLoop_success_cons r rest hr
  refine ⟨hloop, ?_⟩
  rw [run_args_eq inv path os harg]
  exact run_opened_success inv.prog path os 1 hopen hloop

/-- Witness for C9 at a strictly positive ioctl return value (7): the
run still succeeds with exit status 0. -/
theorem c9_witness :
    probeLoop [(⟨7, 0⟩ : IoctlRes)] = .success 1 ∧
    run ⟨"prober", ["/dev/dm-6"]⟩ ⟨5, 0, [⟨7, 0⟩], 0⟩ =
      some ⟨0, ["probing"], [], true, 1, true⟩ :=
  c9_nonneg_return_is_success ⟨"prober", ["/dev/dm-6"]⟩ "/dev/dm-6"
    ⟨5, 0, [⟨7, 0⟩], 0⟩ ⟨7, 0⟩ [] rfl (by decide) rfl (by decide)

/-- Claim C10: on the success path the result of `close` is ignored:
the run is unchanged under any value of the close result, and the exit
status is 0 regardless. -/
theorem c10_close_result_ignored (inv : Invocation) (path : String)
    (os : OS) (c : Int) (n : Nat) (harg : inv.args = [path])
    (hopen : 0 ≤ os.openRet) (hs : probeLoop os.ioctl = .success n) :
    run inv ⟨os.openRet, os.openErrno, os.ioctl, c⟩ = run inv os ∧
    run inv os = some ⟨0, ["probing"], [], true, n, true⟩ := by
  constructor
  · rfl
  · rw [run_args_eq inv path os harg]
    exact run_opened_success inv.prog path os n hopen hs

/-- Witness for C10: changing the close result from 0 to -1 does not
change the run, which exits with status 0. -/
theorem c10_witness :
    run ⟨"prober", ["/dev/dm-7"]⟩ ⟨6, 0, [⟨0, 0⟩], -1⟩ =
      run ⟨"prober", ["/dev/dm-7"]⟩ ⟨6, 0, [⟨0, 0⟩], 0⟩ ∧
    run ⟨"prober", ["/dev/dm-7"]⟩ ⟨6, 0, [⟨0, 0⟩], 0⟩ =
      some ⟨0, ["probing"], [], true, 1, true⟩ :=
  c10_close_result_ignored ⟨"prober", ["/dev/dm-7"]⟩ "/dev/dm-7"
    ⟨6, 0, [⟨0, 0⟩], 0⟩ (-1) 1 rfl (by decide) (by decide)

end Probe
